import Mathlib

/-!
Verification of the batch PDF printer repository.

The repository discovers PDF files under a directory tree, orders them by
(directory, filename), and prints them in fixed-size batches with pacing
delays.  This file gives a shallow embedding of the relevant functions:

* `pyRange`, `batches`           — the slicing loop of
  `batch_pdf_printer.print_pdfs_in_batches` (`range(0, total, B)`,
  `pdf_files[i:i+B]`), which is also the list comprehension used by
  `gui_pdf_printer.show_preview` / `_print_thread` and
  `interactive_pdf_printer.print_pdfs`;
* `print_pdf_step`, `print_pdfs_in_batches`, `loopTally` — the success /
  failure counting of the print loops;
* `gui_print_thread`            — the cancellable print thread of
  `gui_pdf_printer.PDFPrinterGUI._print_thread` (the `is_printing` flag is
  modelled as a function of the number of times the loop has read it);
* `win_trace`, `gui_win_trace`, `linux_trace`, `interactive_trace` — event
  traces (print / inter-file sleep / inter-batch sleep) of the four print
  loops;
* `lexLt`, `keyLE`, `sort_pdf_files`, `find_pdf_files` — Python string
  comparison (code-point lexicographic on the character sequence), the
  `(x[0], x[1])` tuple sort key, the in-place stable sort of
  `sort_pdf_files` (modelled by the stable `List.insertionSort`), and the
  `os.walk`-based discovery of `find_pdf_files`.

Machine integers do not occur (Python integers are unbounded); all counters
are `Nat`.
-/

namespace BatchPDF

/-- Python `range(start, stop, step)` for a positive `step`: the arithmetic
progression `start, start + step, …` strictly below `stop`.  It has
`⌈(stop - start) / step⌉` elements. -/
def pyRange (start stop step : Nat) : List Nat :=
  List.range' start ((stop - start + step - 1) / step) step

/-- The batch slicing of `print_pdfs_in_batches` (`batch_pdf_printer.py`
lines 116–117): `for i in range(0, total_files, batch_size): batch =
pdf_files[i:i + batch_size]`.  The same expression appears as the list
comprehension `[found_pdfs[i:i + batch_size] for i in range(0,
len(found_pdfs), batch_size)]` in the GUI and interactive front ends.
A Python slice `L[i:i+B]` with nonnegative bounds is `(L.drop i).take B`. -/
def batches (L : List α) (B : Nat) : List (List α) :=
  (pyRange 0 L.length B).map (fun i => (L.drop i).take B)

/-- Splitting a `take` at an intermediate point. -/
theorem take_add_split (l : List α) (m n : Nat) :
    l.take (m + n) = l.take m ++ (l.drop m).take n := by
  conv_lhs => rw [← List.take_append_drop m (l.take (m + n))]
  rw [List.take_take, Nat.min_eq_left (Nat.le_add_right m n), ← List.take_drop]

/-- Concatenating `n` consecutive `B`-sized slices starting at `i` gives the
`n * B` elements of `L` starting at `i`. -/
theorem flatten_slices (L : List α) (B : Nat) :
    ∀ n i, (((List.range' i n B).map (fun k => (L.drop k).take B)).flatten) =
      (L.drop i).take (n * B) := by
  intro n
  induction n with
  | zero => intro i; simp
  | succ n ih =>
    intro i
    rw [List.range'_succ, List.map_cons, List.flatten_cons, ih (i + B),
      ← List.drop_drop, ← take_add_split]
    congr 1
    ring

/-- Ceiling division: `B * ((n + B - 1) / B)` is at least `n`. -/
theorem ceil_div_mul_ge (n B : Nat) (hB : 1 ≤ B) :
    n ≤ ((n + B - 1) / B) * B := by
  have h1 := Nat.div_add_mod (n + B - 1) B
  have h2 : (n + B - 1) % B < B := Nat.mod_lt _ hB
  have h3 : ((n + B - 1) / B) * B = B * ((n + B - 1) / B) := Nat.mul_comm ..
  omega

/-- Ceiling division: `B * ((n + B - 1) / B)` is below `n + B`. -/
theorem ceil_div_mul_lt (n B : Nat) :
    ((n + B - 1) / B) * B ≤ n + B - 1 := by
  have h3 : ((n + B - 1) / B) * B = B * ((n + B - 1) / B) := Nat.mul_comm ..
  have h4 := Nat.mul_div_le (n + B - 1) B
  omega

/-- The batches of `L` concatenate back to `L`. -/
theorem flatten_batches (L : List α) (B : Nat) (hB : 1 ≤ B) :
    (batches L B).flatten = L := by
  rw [batches, pyRange, Nat.sub_zero, flatten_slices, List.drop_zero]
  exact List.take_of_length_le (ceil_div_mul_ge L.length B hB)

/-- The number of batches is `⌈|L| / B⌉`, computed as in the source
(`total_batches = (total_files + batch_size - 1) // batch_size`). -/
theorem length_batches (L : List α) (B : Nat) :
    (batches L B).length = (L.length + B - 1) / B := by
  simp [batches, pyRange]

/-- Every batch except possibly the last has exactly `B` elements. -/
theorem length_batch_of_not_last (L : List α) (B : Nat) (hB : 1 ≤ B)
    (j : Nat) (hj : j + 1 < (batches L B).length) :
    ((batches L B).getD j []).length = B := by
  have hlen : (batches L B).length = (L.length + B - 1) / B := length_batches L B
  have hj' : j < (batches L B).length := Nat.lt_of_succ_lt hj
  simp only [batches] at hj' ⊢
  rw [List.getD_eq_getElem _ _ hj', List.getElem_map]
  simp only [pyRange, List.getElem_range', Nat.zero_add]
  have hm := ceil_div_mul_lt L.length B
  have hmono : (j + 2) * B ≤ ((L.length + B - 1) / B) * B :=
    Nat.mul_le_mul_right B (by omega)
  have hexp : (j + 2) * B = B * j + B + B := by ring
  simp only [List.length_take, List.length_drop]
  omega

/-- C1: slicing a list `L` into consecutive chunks of size `B ≥ 1` (the
`range(0, total, B)` / `pdf_files[i:i+B]` loop of `print_pdfs_in_batches`,
also used by `show_preview`) reproduces `L` exactly on concatenation, every
batch except possibly the last has exactly `B` elements, and the number of
batches is `⌈|L| / B⌉ = (|L| + B - 1) / B`. -/
theorem claim_C1 (L : List String) (B : Nat) (hB : 1 ≤ B) :
    (batches L B).flatten = L
    ∧ (∀ j, j + 1 < (batches L B).length → ((batches L B).getD j []).length = B)
    ∧ (batches L B).length = (L.length + B - 1) / B :=
  ⟨flatten_batches L B hB,
   fun j hj => length_batch_of_not_last L B hB j hj,
   length_batches L B⟩

/-- Witness for C1 at a concrete input: five files, batch size two. -/
theorem claim_C1_witness :
    (batches ["a", "b", "c", "d", "e"] 2).flatten = ["a", "b", "c", "d", "e"]
    ∧ (∀ j, j + 1 < (batches ["a", "b", "c", "d", "e"] 2).length →
        ((batches ["a", "b", "c", "d", "e"] 2).getD j []).length = 2)
    ∧ (batches ["a", "b", "c", "d", "e"] 2).length = (5 + 2 - 1) / 2 :=
  claim_C1 ["a", "b", "c", "d", "e"] 2 (by decide)

/-! ### The counting print loop (`batch_pdf_printer.print_pdfs_in_batches`) -/

/-- The two counters of `print_pdfs_in_batches` (`batch_pdf_printer.py`
lines 111–112). -/
structure Tally where
  successful_prints : Nat
  failed_prints : Nat
deriving Repr, DecidableEq

/-- One iteration of the inner loop (`batch_pdf_printer.py` lines 123–127):
`if print_pdf(pdf_file): successful_prints += 1 else: failed_prints += 1`.
The print backend `print_pdf` returns `True`/`False` and is a parameter. -/
def print_pdf_step (backend : String → Bool) (t : Tally) (f : String) : Tally :=
  if backend f then
    { t with successful_prints := t.successful_prints + 1 }
  else
    { t with failed_prints := t.failed_prints + 1 }

/-- The nested loop of `print_pdfs_in_batches` (`batch_pdf_printer.py`
lines 116–127): iterate over the batches, and within each batch over its
files, updating the two counters.  (The inter-batch `time.sleep(2)` has no
effect on the counters; the traces below model it separately.) -/
def print_pdfs_in_batches (backend : String → Bool) (pdf_files : List String)
    (batch_size : Nat) : Tally :=
  (batches pdf_files batch_size).foldl
    (fun t batch => batch.foldl (print_pdf_step backend) t) ⟨0, 0⟩

/-- Folding the counting step over a flat file list. -/
def loopTally (backend : String → Bool) (files : List String) : Tally :=
  files.foldl (print_pdf_step backend) ⟨0, 0⟩

/-- Each processed file adds exactly one to the combined tally. -/
theorem tally_counts (backend : String → Bool) :
    ∀ (files : List String) (t : Tally),
      (files.foldl (print_pdf_step backend) t).successful_prints
        + (files.foldl (print_pdf_step backend) t).failed_prints
      = t.successful_prints + t.failed_prints + files.length := by
  intro files
  induction files with
  | nil => intro t; simp
  | cons f fs ih =>
    intro t
    rw [List.foldl_cons]
    have hstep : (print_pdf_step backend t f).successful_prints
        + (print_pdf_step backend t f).failed_prints
        = t.successful_prints + t.failed_prints + 1 := by
      by_cases h : backend f <;> simp [print_pdf_step, h] <;> omega
    have := ih (print_pdf_step backend t f)
    simp only [List.length_cons]
    omega

/-- The nested batch loop updates the counters exactly as the flat loop
over the original list does. -/
theorem print_pdfs_in_batches_eq_flat (backend : String → Bool)
    (L : List String) (B : Nat) (hB : 1 ≤ B) :
    print_pdfs_in_batches backend L B = loopTally backend L := by
  rw [print_pdfs_in_batches, loopTally]
  conv_rhs => rw [← flatten_batches L B hB, List.foldl_flatten]

/-- C2: in the batch print loop every attempted file contributes exactly one
outcome, so after the first `k` files the combined tally equals `k`
(`attempted = succeeded + failed` at every point), and files never reached
contribute to neither counter (the tally of a prefix is independent of the
rest of the list). -/
theorem claim_C2 (backend : String → Bool) (L : List String) (B k : Nat)
    (hB : 1 ≤ B) (hk : k ≤ L.length) :
    print_pdfs_in_batches backend L B = loopTally backend L
    ∧ (loopTally backend (L.take k)).successful_prints
        + (loopTally backend (L.take k)).failed_prints = k := by
  refine ⟨print_pdfs_in_batches_eq_flat backend L B hB, ?_⟩
  have h := tally_counts backend (L.take k) ⟨0, 0⟩
  simp [List.length_take] at h
  rw [loopTally]
  omega

/-- Witness for C2: three files in batches of two, observed after two files. -/
theorem claim_C2_witness :
    print_pdfs_in_batches (fun f => f == "a") ["a", "b", "c"] 2
        = loopTally (fun f => f == "a") ["a", "b", "c"]
    ∧ (loopTally (fun f => f == "a") (["a", "b", "c"].take 2)).successful_prints
        + (loopTally (fun f => f == "a") (["a", "b", "c"].take 2)).failed_prints = 2 :=
  claim_C2 (fun f => f == "a") ["a", "b", "c"] 2 2 (by decide) (by decide)

/-! ### The cancellable GUI print thread (`gui_pdf_printer.PDFPrinterGUI`) -/

/-- State of the GUI print thread `_print_thread` (`gui_pdf_printer.py`
lines 403–459): the `successful` and `failed` counters, plus two ghost
fields: `reads` counts how often the thread has read the shared
`is_printing` flag at a loop boundary, and `backend_calls` counts
invocations of the print backend (`subprocess.run(['lp', …])`). -/
structure GuiRun where
  reads : Nat
  successful : Nat
  failed : Nat
  backend_calls : Nat
deriving Repr, DecidableEq

/-- The inner file loop of `_print_thread`: before each file the thread
checks `if not self.is_printing: break`; then it submits the file and
counts the outcome.  The asynchronous flag is modelled as `live`, a
function of the number of reads performed so far. -/
def gui_file_loop (backend : String → Bool) (live : Nat → Bool) :
    List String → GuiRun → GuiRun
  | [], st => st
  | f :: fs, st =>
    if live st.reads then
      gui_file_loop backend live fs
        (if backend f then
          { st with reads := st.reads + 1, backend_calls := st.backend_calls + 1,
                    successful := st.successful + 1 }
        else
          { st with reads := st.reads + 1, backend_calls := st.backend_calls + 1,
                    failed := st.failed + 1 })
    else
      { st with reads := st.reads + 1 }

/-- The outer batch loop of `_print_thread`: before each batch the thread
checks `if not self.is_printing: break`, then runs the file loop on the
batch.  (The inter-batch sleep and its guarding flag read do not touch the
counters and are not modelled here.) -/
def gui_batch_loop (backend : String → Bool) (live : Nat → Bool) :
    List (List String) → GuiRun → GuiRun
  | [], st => st
  | b :: bs, st =>
    if live st.reads then
      gui_batch_loop backend live bs
        (gui_file_loop backend live b { st with reads := st.reads + 1 })
    else
      { st with reads := st.reads + 1 }

/-- The whole `_print_thread`: slice `found_pdfs` into batches (the same
list comprehension as `batches`) and run the cancellable nested loop with
all counters at zero. -/
def gui_print_thread (backend : String → Bool) (live : Nat → Bool)
    (found_pdfs : List String) (batch_size : Nat) : GuiRun :=
  gui_batch_loop backend live (batches found_pdfs batch_size) ⟨0, 0, 0, 0⟩

/-- `_print_finished` (`gui_pdf_printer.py` lines 461–481) reports the run
as aborted (`"Afgebroken"`) exactly when `successful + failed == 0`. -/
def gui_cancelled (r : GuiRun) : Bool := r.successful + r.failed == 0

/-- C4: the cancellation flag is checked before each file is submitted, and
if cancellation is requested before the thread reaches the first file
(`live` is `false` from the first read on), the run submits zero files:
no backend call, `successful = 0`, `failed = 0`, and the GUI reports the
run as cancelled. -/
theorem claim_C4 (backend : String → Bool) (L : List String) (B : Nat) :
    (gui_print_thread backend (fun _ => false) L B).successful = 0
    ∧ (gui_print_thread backend (fun _ => false) L B).failed = 0
    ∧ (gui_print_thread backend (fun _ => false) L B).backend_calls = 0
    ∧ gui_cancelled (gui_print_thread backend (fun _ => false) L B) = true := by
  rw [gui_print_thread]
  cases batches L B with
  | nil => simp [gui_batch_loop, gui_cancelled]
  | cons b bs => simp [gui_batch_loop, gui_cancelled]

/-! ### Failures never abort the run -/

/-- Five files for the failure scenario of the spec. -/
def c3_files : List String := ["f0", "f1", "f2", "f3", "f4"]

/-- A backend that fails exactly on the files at 0-indexed positions 1 and 3
of `c3_files`. -/
def c3_backend (f : String) : Bool := !(f == "f1" || f == "f3")

/-- C3: individual file print failures never abort the run: the loop
attempts every file regardless of earlier outcomes (the combined tally
always equals the number of input files), and for the 5-file list whose
backend fails exactly at positions 1 and 3 the final tally is 3 successes
and 2 failures; in the cancellable GUI loop with cancellation never
requested the same run makes 5 backend calls and is not reported as
cancelled. -/
theorem claim_C3 (backend : String → Bool) (L : List String) (B : Nat)
    (hB : 1 ≤ B) :
    (print_pdfs_in_batches backend L B).successful_prints
        + (print_pdfs_in_batches backend L B).failed_prints = L.length
    ∧ print_pdfs_in_batches c3_backend c3_files 10 = ⟨3, 2⟩
    ∧ (gui_print_thread c3_backend (fun _ => true) c3_files 10).backend_calls = 5
    ∧ gui_cancelled (gui_print_thread c3_backend (fun _ => true) c3_files 10) = false := by
  refine ⟨?_, by decide, by decide, by decide⟩
  rw [print_pdfs_in_batches_eq_flat backend L B hB, loopTally]
  simpa using tally_counts backend L ⟨0, 0⟩

/-- Witness for C3 at a concrete input. -/
theorem claim_C3_witness :
    (print_pdfs_in_batches c3_backend c3_files 10).successful_prints
        + (print_pdfs_in_batches c3_backend c3_files 10).failed_prints
        = c3_files.length
    ∧ print_pdfs_in_batches c3_backend c3_files 10 = ⟨3, 2⟩
    ∧ (gui_print_thread c3_backend (fun _ => true) c3_files 10).backend_calls = 5
    ∧ gui_cancelled (gui_print_thread c3_backend (fun _ => true) c3_files 10) = false :=
  claim_C3 c3_backend c3_files 10 (by decide)

/-! ### `range` with step zero and the unvalidated `--batch-size` -/

/-- Python `range(start, stop, step)` raises `ValueError: range() arg 3 must
not be zero` when `step` is `0`, before any loop body runs; otherwise it
yields the arithmetic progression. -/
def pyRangeE (start stop step : Nat) : Except String (List Nat) :=
  if step = 0 then .error "range() arg 3 must not be zero"
  else .ok (pyRange start stop step)

/-- `print_pdfs_in_batches` with the `range` call made explicit: if `range`
raises, the exception propagates before any file is printed (the counting
fold never runs); otherwise the loop behaves as `print_pdfs_in_batches`. -/
def print_pdfs_in_batchesE (backend : String → Bool) (pdf_files : List String)
    (batch_size : Nat) : Except String Tally :=
  match pyRangeE 0 pdf_files.length batch_size with
  | .error e => .error e
  | .ok idxs =>
      .ok ((idxs.map (fun i => (pdf_files.drop i).take batch_size)).foldl
        (fun t batch => batch.foldl (print_pdf_step backend) t) ⟨0, 0⟩)

/-- The Linux CLI `main` (`batch_pdf_printer.py` lines 137–190) parses
`--batch-size` with `type=int` and no further validation, and passes it
straight to `print_pdfs_in_batches`. -/
def linux_main_run (backend : String → Bool) (files : List String)
    (arg_batch_size : Nat) : Except String Tally :=
  print_pdfs_in_batchesE backend files arg_batch_size

/-- C9: `print_pdfs_in_batches` implicitly requires `batch_size ≥ 1`: with
`batch_size = 0` the `range(0, total, 0)` call raises before any file is
printed, for every (in particular every non-empty) file list, and the CLI
accepts `--batch-size 0` without validation, so the call with `0` is
reachable from the public interface; for every `batch_size ≥ 1` no
exception occurs. -/
theorem claim_C9 (backend : String → Bool) (L : List String) (_hL : L ≠ []) :
    linux_main_run backend L 0 = .error "range() arg 3 must not be zero"
    ∧ ∀ B, 1 ≤ B →
        linux_main_run backend L B = .ok (print_pdfs_in_batches backend L B) := by
  constructor
  · rw [linux_main_run, print_pdfs_in_batchesE, pyRangeE]
    simp
  · intro B hBpos
    rw [linux_main_run, print_pdfs_in_batchesE, pyRangeE, if_neg (by omega)]
    rfl

/-- Witness for C9 on a non-empty concrete list. -/
theorem claim_C9_witness :
    linux_main_run (fun _ => true) ["a.pdf"] 0
        = .error "range() arg 3 must not be zero"
    ∧ ∀ B, 1 ≤ B →
        linux_main_run (fun _ => true) ["a.pdf"] B
          = .ok (print_pdfs_in_batches (fun _ => true) ["a.pdf"] B) :=
  claim_C9 (fun _ => true) ["a.pdf"] (by decide)

/-! ### Exit codes of the command-line front ends -/

/-- The Windows CLI print loop (`batch_pdf_printer_windows.py` lines
144–175) iterates over the flat file list and returns
`(successful_count, error_count)`. -/
def win_print_counts (backend : String → Bool) (pdf_files : List String) :
    Nat × Nat :=
  pdf_files.foldl
    (fun c f => if backend f then (c.1 + 1, c.2) else (c.1, c.2 + 1)) (0, 0)

/-- The Windows CLI `main` return value on the completed-run path
(`batch_pdf_printer_windows.py` line 337): `1 if error_count > 0 else 0`;
`sys.exit` is called with it. -/
def win_main_exit (backend : String → Bool) (pdf_files : List String) : Nat :=
  if (win_print_counts backend pdf_files).2 > 0 then 1 else 0

/-- The Linux CLI `main` (`batch_pdf_printer.py` lines 137–190) calls
`print_pdfs_in_batches` and returns `None`; the process then exits with
status `0` whatever the tally was. -/
def linux_main_exit (backend : String → Bool) (pdf_files : List String)
    (batch_size : Nat) : Nat :=
  let _ := print_pdfs_in_batches backend pdf_files batch_size
  0

/-- Counterexample to C7: a completed Linux CLI run with one failed file
exits with status 0, not a non-zero status. -/
theorem claim_C7_cex :
    0 < (print_pdfs_in_batches (fun _ => false) ["a.pdf"] 10).failed_prints
    ∧ linux_main_exit (fun _ => false) ["a.pdf"] 10 = 0 := by
  decide

/-- C7 (amended): the Windows CLI exits with status 1 when at least one file
failed and with status 0 when no file failed; the Linux CLI always exits
with status 0 after a completed run, regardless of failures. -/
theorem claim_C7 (backend : String → Bool) (files : List String) (B : Nat) :
    (0 < (win_print_counts backend files).2 → win_main_exit backend files = 1)
    ∧ ((win_print_counts backend files).2 = 0 → win_main_exit backend files = 0)
    ∧ linux_main_exit backend files B = 0 := by
  refine ⟨?_, ?_, rfl⟩
  · intro h; rw [win_main_exit, if_pos h]
  · intro h; rw [win_main_exit, h]; rfl

/-- Witness for C7: a failing Windows run exits 1, a clean one exits 0. -/
theorem claim_C7_witness :
    win_main_exit (fun _ => false) ["x.pdf"] = 1
    ∧ win_main_exit (fun _ => true) ["x.pdf"] = 0
    ∧ linux_main_exit (fun _ => true) ["x.pdf"] 1 = 0 :=
  ⟨(claim_C7 (fun _ => false) ["x.pdf"] 1).1 (by decide),
   (claim_C7 (fun _ => true) ["x.pdf"] 1).2.1 (by decide),
   (claim_C7 (fun _ => true) ["x.pdf"] 1).2.2⟩

/-! ### Event traces of the print loops (sleeps and submissions) -/

/-- Observable events of a print run: a file submission with its outcome, an
inter-file sleep (`time.sleep(0.5)`), and an inter-batch sleep
(`time.sleep(delay)`). -/
inductive Ev where
  | print (file : String) (ok : Bool)
  | sleepFile
  | sleepBatch
deriving Repr, DecidableEq

/-- Events of one iteration of the Windows CLI loop
(`batch_pdf_printer_windows.py` lines 154–173): print the file, then
`time.sleep(0.5)` unconditionally, then `time.sleep(delay)` when a batch
boundary is crossed and files remain
(`(i + 1) % batch_size == 0 and i + 1 < total_files`). -/
def win_file_events (n B i : Nat) (f : String) (ok : Bool) : List Ev :=
  [Ev.print f ok, Ev.sleepFile]
    ++ (if (i + 1) % B = 0 ∧ i + 1 < n then [Ev.sleepBatch] else [])

/-- The full event trace of the Windows CLI `print_pdfs_in_batches`:
`for i, (pdf_path, relative_path) in enumerate(pdf_files)`. -/
def win_trace (backend : String → Bool) (files : List String) (B : Nat) :
    List Ev :=
  (files.enum.map (fun p => win_file_events files.length B p.1 p.2 (backend p.2))).flatten

/-- Events of one iteration of the Windows GUI worker
(`gui_pdf_printer_windows.py` lines 405–424): print the file; on success
sleep `delay` at a non-final batch boundary and `0.5` seconds otherwise
(also after the very last file); when `os.startfile` raises, the `except`
branch skips both sleeps. -/
def gui_win_file_events (n B i : Nat) (f : String) (ok : Bool) : List Ev :=
  [Ev.print f ok]
    ++ (if ok then
          (if (i + 1) % B = 0 ∧ i + 1 < n then [Ev.sleepBatch] else [Ev.sleepFile])
        else [])

/-- The full event trace of the Windows GUI `print_worker`. -/
def gui_win_trace (backend : String → Bool) (files : List String) (B : Nat) :
    List Ev :=
  (files.enum.map (fun p => gui_win_file_events files.length B p.1 p.2 (backend p.2))).flatten

/-- Events of one batch of the Linux CLI loop (`batch_pdf_printer.py` lines
116–132): print each file of the slice (no inter-file sleep exists in this
loop), then `time.sleep(2)` when `i + batch_size < total_files`. -/
def linux_batch_events (backend : String → Bool) (L : List String)
    (n B i : Nat) : List Ev :=
  ((L.drop i).take B).map (fun f => Ev.print f (backend f))
    ++ (if i + B < n then [Ev.sleepBatch] else [])

/-- The full event trace of the Linux CLI `print_pdfs_in_batches`. -/
def linux_trace (backend : String → Bool) (L : List String) (B : Nat) :
    List Ev :=
  ((pyRange 0 L.length B).map (linux_batch_events backend L L.length B)).flatten

/-- The batch loop of `interactive_pdf_printer.print_pdfs` (lines 345–367):
`for batch_num, batch in enumerate(batches, 1)`, printing each file and
sleeping between batches when `batch_num < len(batches)`. -/
def inter_batch_loop (backend : String → Bool) (total : Nat) :
    List (List String) → Nat → List Ev
  | [], _ => []
  | b :: bs, batch_num =>
      b.map (fun f => Ev.print f (backend f))
        ++ (if batch_num < total then [Ev.sleepBatch] else [])
        ++ inter_batch_loop backend total bs (batch_num + 1)

/-- The full event trace of the interactive front end's print loop. -/
def interactive_trace (backend : String → Bool) (L : List String) (B : Nat) :
    List Ev :=
  inter_batch_loop backend (batches L B).length (batches L B) 1

/-- Print events are neither kind of sleep. -/
theorem count_sleep_map_print (backend : String → Bool) (l : List String)
    (e : Ev) (he : ∀ f ok, e ≠ Ev.print f ok) :
    (l.map (fun f => Ev.print f (backend f))).count e = 0 := by
  rw [List.count_eq_zero]
  intro hmem
  rw [List.mem_map] at hmem
  obtain ⟨f, _, hf⟩ := hmem
  exact he f (backend f) hf.symm

/-- Sum of a function that is constantly one. -/
theorem sum_map_eq_length (l : List α) (f : α → Nat) (h : ∀ a ∈ l, f a = 1) :
    (l.map f).sum = l.length := by
  induction l with
  | nil => rfl
  | cons a l ih =>
    rw [List.map_cons, List.sum_cons, h a (List.mem_cons_self a l),
      ih (fun b hb => h b (List.mem_cons_of_mem a hb)), List.length_cons]
    omega

/-- Sums of pointwise sums split. -/
theorem sum_map_add_split (l : List α) (f g : α → Nat) :
    (l.map (fun a => f a + g a)).sum = (l.map f).sum + (l.map g).sum := by
  induction l with
  | nil => rfl
  | cons a l ih => simp [ih]; omega

/-- Each Windows CLI iteration performs exactly one inter-file sleep. -/
theorem win_file_events_count_sleepFile (n B i : Nat) (f : String) (ok : Bool) :
    (win_file_events n B i f ok).count Ev.sleepFile = 1 := by
  rw [win_file_events]
  by_cases h : (i + 1) % B = 0 ∧ i + 1 < n <;>
    simp [h, List.count_cons, List.count_append]

/-- The Windows CLI loop sleeps the inter-file delay once per file —
including after the final file of the run. -/
theorem win_count_sleepFile (backend : String → Bool) (files : List String)
    (B : Nat) :
    (win_trace backend files B).count Ev.sleepFile = files.length := by
  rw [win_trace, List.count_flatten, List.map_map]
  rw [sum_map_eq_length _ _
    (fun p _ => win_file_events_count_sleepFile files.length B p.1 p.2 (backend p.2))]
  exact List.enum_length ..

/-- Sums of pointwise equal functions agree. -/
theorem sum_map_congr (l : List α) (f g : α → Nat) (h : ∀ a ∈ l, f a = g a) :
    (l.map f).sum = (l.map g).sum := by
  induction l with
  | nil => rfl
  | cons a l ih =>
    rw [List.map_cons, List.map_cons, List.sum_cons, List.sum_cons,
      h a (List.mem_cons_self a l),
      ih (fun b hb => h b (List.mem_cons_of_mem a hb))]

/-- A sum over the enumerated list that ignores the indices is a sum over
the list itself. -/
theorem sum_map_enumFrom_snd (g : String → Nat) :
    ∀ (l : List String) (s : Nat),
      ((List.enumFrom s l).map (fun p => g p.2)).sum = (l.map g).sum := by
  intro l
  induction l with
  | nil => intro s; rfl
  | cons a l ih =>
    intro s
    simp only [List.enumFrom, List.map_cons, List.sum_cons, ih (s + 1)]

/-- Summing the success indicator counts the successes. -/
theorem sum_indicator_eq_countP (backend : String → Bool) :
    ∀ l : List String,
      (l.map (fun f => if backend f then 1 else 0)).sum = l.countP backend := by
  intro l
  induction l with
  | nil => rfl
  | cons a l ih =>
    rw [List.map_cons, List.sum_cons, List.countP_cons, ih]
    by_cases h : backend a <;> simp [h]
    omega

/-- Each Windows GUI iteration performs exactly one sleep (of either kind)
when the submission succeeds, and none when it fails. -/
theorem gui_win_file_events_count (n B i : Nat) (f : String) (ok : Bool) :
    (gui_win_file_events n B i f ok).count Ev.sleepFile
      + (gui_win_file_events n B i f ok).count Ev.sleepBatch
      = if ok then 1 else 0 := by
  rw [gui_win_file_events]
  cases ok with
  | false => simp [List.count_cons]
  | true =>
    by_cases h : (i + 1) % B = 0 ∧ i + 1 < n <;>
      simp [h, List.count_cons, List.count_append]

/-- The Windows GUI worker sleeps exactly once after every successfully
submitted file — after the final file as well — and not at all after a
failed submission (the `except` branch skips the sleeps). -/
theorem gui_win_count_sleeps (backend : String → Bool) (files : List String)
    (B : Nat) :
    (gui_win_trace backend files B).count Ev.sleepFile
      + (gui_win_trace backend files B).count Ev.sleepBatch
      = files.countP backend := by
  rw [gui_win_trace, List.count_flatten, List.count_flatten, List.map_map,
    List.map_map, ← sum_map_add_split]
  rw [sum_map_congr _ _ (fun p => if backend p.2 then 1 else 0)
    (fun p _ => gui_win_file_events_count files.length B p.1 p.2 (backend p.2))]
  exact (sum_map_enumFrom_snd (fun f => if backend f then 1 else 0) files 0).trans
    (sum_indicator_eq_countP backend files)

/-- The Linux CLI loop never sleeps between files. -/
theorem linux_count_sleepFile (backend : String → Bool) (L : List String)
    (B : Nat) :
    (linux_trace backend L B).count Ev.sleepFile = 0 := by
  rw [linux_trace, List.count_flatten, List.map_map]
  rw [List.sum_eq_zero]
  intro x hx
  simp only [List.mem_map, Function.comp] at hx
  obtain ⟨i, _, hi⟩ := hx
  subst hi
  rw [linux_batch_events, List.count_append,
    count_sleep_map_print backend _ _ (by intro f ok h; cases h)]
  by_cases h : i + B < L.length <;> simp [h, List.count_cons]

/-- Counterexample to C5: for a single-file run (where no two files are
consecutive within a batch, and the only file is the last file overall) the
Windows CLI loop still performs an inter-file sleep, so the number of
inter-file sleeps is not zero. -/
theorem claim_C5_cex :
    ¬ ((win_trace (fun _ => true) ["doc.pdf"] 10).count Ev.sleepFile = 0) := by
  decide

/-- C5 (amended): after each file's outcome is recorded the loop sleeps, the
final file of the run included: the Windows CLI sleeps the inter-file delay
after every file (additionally pausing at non-final batch boundaries); the
Windows GUI worker sleeps exactly once after every successfully submitted
file (the inter-batch pause at non-final batch boundaries, the inter-file
delay otherwise — also after the last file) and not at all after a failed
submission; the Linux CLI has no inter-file sleep at all. -/
theorem claim_C5 (backend : String → Bool) (files : List String) (B : Nat)
    (_hB : 1 ≤ B) :
    (win_trace backend files B).count Ev.sleepFile = files.length
    ∧ (gui_win_trace backend files B).count Ev.sleepFile
        + (gui_win_trace backend files B).count Ev.sleepBatch
        = files.countP backend
    ∧ (linux_trace backend files B).count Ev.sleepFile = 0 :=
  ⟨win_count_sleepFile backend files B,
   gui_win_count_sleeps backend files B,
   linux_count_sleepFile backend files B⟩

/-- Witness for C5: two files, batch size ten, with a backend that succeeds
on the first file and fails on the second. -/
theorem claim_C5_witness :
    (win_trace (fun f => f == "a") ["a", "b"] 10).count Ev.sleepFile = 2
    ∧ (gui_win_trace (fun f => f == "a") ["a", "b"] 10).count Ev.sleepFile
        + (gui_win_trace (fun f => f == "a") ["a", "b"] 10).count Ev.sleepBatch
        = (["a", "b"].countP (fun f => f == "a"))
    ∧ (linux_trace (fun f => f == "a") ["a", "b"] 10).count Ev.sleepFile = 0 :=
  claim_C5 (fun f => f == "a") ["a", "b"] 10 (by decide)

/-! ### Counting the inter-batch pauses -/

/-- The interactive batch loop pauses after each batch whose (1-based)
number is below the total. -/
theorem inter_batch_loop_count (backend : String → Bool) (total : Nat) :
    ∀ (bs : List (List String)) (k : Nat),
      (inter_batch_loop backend total bs k).count Ev.sleepBatch
        = min bs.length (total - k) := by
  intro bs
  induction bs with
  | nil => intro k; simp [inter_batch_loop]
  | cons b bs ih =>
    intro k
    rw [inter_batch_loop, List.count_append, List.count_append,
      count_sleep_map_print backend _ _ (by intro f ok h; cases h), ih (k + 1),
      List.length_cons]
    by_cases hk : k < total <;> simp [hk, List.count_cons] <;> omega

/-- The Linux CLI trace pauses once per slice index `i` with
`i + batch_size < total_files`. -/
theorem linux_count_sleepBatch_filter (backend : String → Bool)
    (L : List String) (B : Nat) :
    ∀ (m s : Nat),
      (((List.range' s m B).map (linux_batch_events backend L L.length B)).flatten).count
          Ev.sleepBatch
        = ((List.range' s m B).filter (fun i => decide (i + B < L.length))).length := by
  intro m
  induction m with
  | zero => intro s; simp
  | succ m ih =>
    intro s
    rw [List.range'_succ, List.map_cons, List.flatten_cons, List.count_append,
      ih (s + B), List.filter_cons, linux_batch_events, List.count_append,
      count_sleep_map_print backend _ _ (by intro f ok h; cases h)]
    by_cases hs : s + B < L.length
    · simp [hs, List.count_cons]
      omega
    · simp [hs, List.count_cons]

/-- Length of the filtered index list: among the slice start indices
`s, s + B, …` (`m` of them), those with `i + B < n` number
`min m ((n - s - 1) / B)`. -/
theorem filter_range'_cond_length (n B : Nat) (hB : 1 ≤ B) :
    ∀ (m s : Nat),
      ((List.range' s m B).filter (fun i => decide (i + B < n))).length
        = min m ((n - s - 1) / B) := by
  intro m
  induction m with
  | zero => intro s; simp
  | succ m ih =>
    intro s
    rw [List.range'_succ, List.filter_cons]
    have hnorm : n - (s + B) - 1 = n - s - B - 1 := by omega
    by_cases hs : s + B < n
    · have harg : n - s - 1 = (n - s - B - 1) + B := by omega
      have hdiv : (n - s - 1) / B = (n - s - B - 1) / B + 1 := by
        rw [harg, Nat.add_div_right _ hB]
      rw [if_pos (decide_eq_true hs), List.length_cons, ih (s + B), hnorm, hdiv]
      set D := (n - s - B - 1) / B with hD
      omega
    · have hdec : ¬ (decide (s + B < n) = true) := by simpa using hs
      have h1 : (n - s - 1) / B = 0 := Nat.div_eq_of_lt (by omega)
      have h2 : (n - s - B - 1) / B = 0 := Nat.div_eq_of_lt (by omega)
      rw [if_neg hdec, ih (s + B), hnorm, h1, h2]
      simp

/-- The Linux CLI performs `⌈n / B⌉ - 1` inter-batch pauses. -/
theorem linux_count_sleepBatch (backend : String → Bool) (L : List String)
    (B : Nat) (hB : 1 ≤ B) :
    (linux_trace backend L B).count Ev.sleepBatch
      = (L.length + B - 1) / B - 1 := by
  rw [linux_trace, pyRange, Nat.sub_zero,
    linux_count_sleepBatch_filter backend L B,
    filter_range'_cond_length L.length B hB]
  have harg2 : L.length - 0 - 1 = L.length - 1 := by omega
  rw [harg2]
  by_cases hn : L.length = 0
  · rw [hn]
    have h1 : (0 + B - 1) / B = 0 := Nat.div_eq_of_lt (by omega)
    rw [h1]
    simp
  · have harg : L.length + B - 1 = (L.length - 1) + B := by omega
    have hdiv : (L.length + B - 1) / B = (L.length - 1) / B + 1 := by
      rw [harg, Nat.add_div_right _ hB]
    rw [hdiv, Nat.min_eq_right (Nat.le_succ _), Nat.add_sub_cancel]

/-- The interactive front end performs `⌈n / B⌉ - 1` inter-batch pauses. -/
theorem interactive_count_sleepBatch (backend : String → Bool)
    (L : List String) (B : Nat) :
    (interactive_trace backend L B).count Ev.sleepBatch
      = (L.length + B - 1) / B - 1 := by
  rw [interactive_trace, inter_batch_loop_count, length_batches]
  exact Nat.min_eq_right (Nat.sub_le _ _)

/-- Twenty-three concrete files for the 23-file scenario. -/
def c23_files : List String := (List.range 23).map (fun i => "f" ++ toString i)

/-- C6: for `N` files and batch size `B` the run performs exactly
`⌈N / B⌉ - 1` inter-batch pauses (Linux CLI and interactive front end,
uniformly in the backend); in particular, for 23 files and batch size 10
the plan has 3 batches of sizes `[10, 10, 3]` and exactly 2 inter-batch
pauses occur — in the Windows CLI trace as well — never one after the
final batch. -/
theorem claim_C6 (backend : String → Bool) (L : List String) (B : Nat)
    (hB : 1 ≤ B) :
    (linux_trace backend L B).count Ev.sleepBatch = (L.length + B - 1) / B - 1
    ∧ (interactive_trace backend L B).count Ev.sleepBatch
        = (L.length + B - 1) / B - 1
    ∧ (batches c23_files 10).map List.length = [10, 10, 3]
    ∧ (linux_trace (fun _ => true) c23_files 10).count Ev.sleepBatch = 2
    ∧ (interactive_trace (fun _ => true) c23_files 10).count Ev.sleepBatch = 2
    ∧ (win_trace (fun _ => true) c23_files 10).count Ev.sleepBatch = 2 :=
  ⟨linux_count_sleepBatch backend L B hB,
   interactive_count_sleepBatch backend L B,
   by decide, by decide, by decide, by decide⟩

/-- Witness for C6 at the 23-file scenario itself. -/
theorem claim_C6_witness :
    (linux_trace (fun _ => true) c23_files 10).count Ev.sleepBatch
        = (c23_files.length + 10 - 1) / 10 - 1
    ∧ (interactive_trace (fun _ => true) c23_files 10).count Ev.sleepBatch
        = (c23_files.length + 10 - 1) / 10 - 1
    ∧ (batches c23_files 10).map List.length = [10, 10, 3]
    ∧ (linux_trace (fun _ => true) c23_files 10).count Ev.sleepBatch = 2
    ∧ (interactive_trace (fun _ => true) c23_files 10).count Ev.sleepBatch = 2
    ∧ (win_trace (fun _ => true) c23_files 10).count Ev.sleepBatch = 2 :=
  claim_C6 (fun _ => true) c23_files 10 (by decide)

/-! ### Python string comparison and the ordering step -/

/-- Python string `<`: lexicographic comparison of the code-point
sequences. -/
def lexLt : List Char → List Char → Bool
  | [], [] => false
  | [], _ :: _ => true
  | _ :: _, [] => false
  | a :: as, b :: bs => if a < b then true else if b < a then false else lexLt as bs

/-- Python string comparison is a trichotomy. -/
theorem lexLt_trichotomy : ∀ a b, lexLt a b = true ∨ a = b ∨ lexLt b a = true := by
  intro a
  induction a with
  | nil =>
    intro b
    cases b with
    | nil => exact Or.inr (Or.inl rfl)
    | cons y bs => exact Or.inl rfl
  | cons x as ih =>
    intro b
    cases b with
    | nil => exact Or.inr (Or.inr rfl)
    | cons y bs =>
      rcases lt_trichotomy x y with h | h | h
      · left
        simp only [lexLt]
        rw [if_pos h]
      · subst h
        rcases ih bs with h' | h' | h'
        · left
          simp only [lexLt]
          rw [if_neg (lt_irrefl x), if_neg (lt_irrefl x)]
          exact h'
        · exact Or.inr (Or.inl (by rw [h']))
        · right; right
          simp only [lexLt]
          rw [if_neg (lt_irrefl x), if_neg (lt_irrefl x)]
          exact h'
      · right; right
        simp only [lexLt]
        rw [if_pos h]

/-- Python string comparison is transitive. -/
theorem lexLt_trans : ∀ a b c, lexLt a b = true → lexLt b c = true →
    lexLt a c = true := by
  intro a
  induction a with
  | nil =>
    intro b c hab hbc
    cases c with
    | nil =>
      cases b with
      | nil => exact absurd hab (by simp [lexLt])
      | cons y bs => exact absurd hbc (by simp [lexLt])
    | cons z cs => rfl
  | cons x as ih =>
    intro b c hab hbc
    cases b with
    | nil => exact absurd hab (by simp [lexLt])
    | cons y bs =>
      cases c with
      | nil => exact absurd hbc (by simp [lexLt])
      | cons z cs =>
        simp only [lexLt] at hab hbc ⊢
        by_cases hxy : x < y
        · by_cases hyz : y < z
          · rw [if_pos (hxy.trans hyz)]
          · by_cases hzy : z < y
            · rw [if_neg hyz, if_pos hzy] at hbc
              exact absurd hbc (by simp)
            · have heq : y = z := le_antisymm (not_lt.mp hzy) (not_lt.mp hyz)
              rw [if_pos (heq ▸ hxy)]
        · by_cases hyx : y < x
          · rw [if_neg hxy, if_pos hyx] at hab
            exact absurd hab (by simp)
          · have heq : x = y := le_antisymm (not_lt.mp hyx) (not_lt.mp hxy)
            subst heq
            rw [if_neg hxy, if_neg hyx] at hab
            by_cases hxz : x < z
            · rw [if_pos hxz]
            · by_cases hzx : z < x
              · rw [if_neg hxz, if_pos hzx] at hbc
                exact absurd hbc (by simp)
              · have heq2 : x = z := le_antisymm (not_lt.mp hzx) (not_lt.mp hxz)
                subst heq2
                rw [if_neg hxz, if_neg hzx] at hbc ⊢
                exact ih bs cs hab hbc

/-- Python string `<=` on the sort keys `(x[0], x[1])`: tuple comparison is
lexicographic, and string `<=` is `<` or equality of the code-point
sequences. -/
def keyLE (a b : String × String) : Prop :=
  lexLt a.1.data b.1.data = true
  ∨ (a.1.data = b.1.data
      ∧ (lexLt a.2.data b.2.data = true ∨ a.2.data = b.2.data))

instance keyLE.decRel : DecidableRel keyLE := fun a b => by
  unfold keyLE; infer_instance

instance keyLE.total : IsTotal (String × String) keyLE where
  total a b := by
    rcases lexLt_trichotomy a.1.data b.1.data with h | h | h
    · exact Or.inl (Or.inl h)
    · rcases lexLt_trichotomy a.2.data b.2.data with h2 | h2 | h2
      · exact Or.inl (Or.inr ⟨h, Or.inl h2⟩)
      · exact Or.inl (Or.inr ⟨h, Or.inr h2⟩)
      · exact Or.inr (Or.inr ⟨h.symm, Or.inl h2⟩)
    · exact Or.inr (Or.inl h)

instance keyLE.trans : IsTrans (String × String) keyLE where
  trans a b c hab hbc := by
    rcases hab with h1 | ⟨e1, h1⟩ <;> rcases hbc with h2 | ⟨e2, h2⟩
    · exact Or.inl (lexLt_trans _ _ _ h1 h2)
    · exact Or.inl (e2 ▸ h1)
    · exact Or.inl (e1 ▸ h2)
    · refine Or.inr ⟨e1.trans e2, ?_⟩
      rcases h1 with h1 | h1 <;> rcases h2 with h2 | h2
      · exact Or.inl (lexLt_trans _ _ _ h1 h2)
      · exact Or.inl (h2 ▸ h1)
      · exact Or.inl (h1 ▸ h2)
      · exact Or.inr (h1.trans h2)

/-- `os.path.join` for one directory and one filename (POSIX separator;
joining with the empty directory keeps the bare filename, as in Python). -/
def os_path_join (d f : String) : String :=
  if d = "" then f else d ++ "/" ++ f

/-- `sort_pdf_files` (`batch_pdf_printer.py` lines 57–71): the in-place
stable sort `pdf_files.sort(key=lambda x: (x[0], x[1]))` followed by
`return [os.path.join(directory, filename) …]`.  The pair models the
mutation: the first component is the caller's list after the call, the
second the returned value.  Python's `list.sort` is a stable sort by the
key order; it is modelled by the stable `List.insertionSort`. -/
def sort_pdf_files (pdf_files : List (String × String)) :
    List (String × String) × List String :=
  let sorted := pdf_files.insertionSort keyLE
  (sorted, sorted.map (fun p => os_path_join p.1 p.2))

/-! ### Discovery (`find_pdf_files`, `os.walk`) -/

/-- Python `f.lower().endswith('.pdf')`. -/
def isPdfName (f : String) : Bool :=
  ".pdf".data.isSuffixOf (f.data.map Char.toLower)

/-- Python string `<=` as a relation on single strings (`files.sort()` and
`dirs.sort()` use it). -/
def pyStrLE (a b : String) : Prop :=
  lexLt a.data b.data = true ∨ a.data = b.data

instance pyStrLE.decRel : DecidableRel pyStrLE := fun a b => by
  unfold pyStrLE; infer_instance

instance pyStrLE.total : IsTotal String pyStrLE where
  total a b := by
    rcases lexLt_trichotomy a.data b.data with h | h | h
    · exact Or.inl (Or.inl h)
    · exact Or.inl (Or.inr h)
    · exact Or.inr (Or.inl h)

instance pyStrLE.trans : IsTrans String pyStrLE where
  trans a b c hab hbc := by
    rcases hab with h1 | h1 <;> rcases hbc with h2 | h2
    · exact Or.inl (lexLt_trans _ _ _ h1 h2)
    · exact Or.inl (h2 ▸ h1)
    · exact Or.inl (h1 ▸ h2)
    · exact Or.inr (h1.trans h2)

/-- A directory tree: a directory name, the plain files directly inside,
and the subdirectories. -/
inductive DirTree where
  | node (dname : String) (files : List String) (subdirs : List DirTree)
deriving Repr

/-- The directory's own name. -/
def DirTree.dname : DirTree → String
  | .node n _ _ => n

/-- `dirs.sort()` order on subtrees: by directory name. -/
def dirLE (t₁ t₂ : DirTree) : Prop := pyStrLE t₁.dname t₂.dname

instance dirLE.decRel : DecidableRel dirLE := fun a b => by
  unfold dirLE; infer_instance

instance dirLE.total : IsTotal DirTree dirLE where
  total a b := IsTotal.total (r := pyStrLE) a.dname b.dname

instance dirLE.trans : IsTrans DirTree dirLE where
  trans _ _ _ hab hbc := IsTrans.trans (r := pyStrLE) _ _ _ hab hbc

/-- The `os.walk` traversal of `find_pdf_files` (`batch_pdf_printer.py`
lines 31–54), with explicit recursion fuel: at each directory, sort the
subdirectory list in place (`dirs.sort()`, which fixes the traversal
order), collect the PDF files of the current directory sorted by name
(`pdf_files_in_dir.sort()`), emit them as `(root, filename)` pairs, then
walk the subdirectories in sorted order.  `fuel` bounds the recursion
depth; `find_pdf_files` supplies a sufficient bound. -/
def find_pdf_files_go (fuel : Nat) (path : String) (t : DirTree) :
    List (String × String) :=
  match fuel, t with
  | 0, _ => []
  | fuel + 1, .node _ files subdirs =>
      ((files.filter isPdfName).insertionSort pyStrLE).map (fun f => (path, f))
      ++ ((subdirs.insertionSort dirLE).map
            (fun t2 => find_pdf_files_go fuel (os_path_join path t2.dname) t2)).flatten

mutual

/-- Height of a directory tree. -/
def DirTree.depth : DirTree → Nat
  | .node _ _ subdirs => DirTree.depthList subdirs + 1

/-- Maximal height among a list of subtrees. -/
def DirTree.depthList : List DirTree → Nat
  | [] => 0
  | t :: ts => max t.depth (DirTree.depthList ts)

end

/-- Recursive PDF discovery from a root path: the tree's depth bounds the
recursion, so the walk visits every directory. -/
def find_pdf_files (path : String) (t : DirTree) : List (String × String) :=
  find_pdf_files_go t.depth path t

/-- The directory tree `{A/2.pdf, A/1.pdf, B/1.pdf}` of the spec's
discovery scenario. -/
def demo_tree : DirTree :=
  .node "" [] [.node "A" ["2.pdf", "1.pdf"] [], .node "B" ["1.pdf"] []]

/-- C8: the ordering step is idempotent on already-sorted input — sorting a
list of `(directory, filename)` pairs that is already in (directory, then
filename) lexicographic order leaves the caller's list unchanged and
returns its joined paths in order — and on the discovered tree
`{A/2.pdf, A/1.pdf, B/1.pdf}` discovery plus ordering yields exactly
`[A/1.pdf, A/2.pdf, B/1.pdf]`. -/
theorem claim_C8 (L : List (String × String)) (h : L.Sorted keyLE) :
    (sort_pdf_files L).1 = L
    ∧ (sort_pdf_files L).2 = L.map (fun p => os_path_join p.1 p.2)
    ∧ (sort_pdf_files (find_pdf_files "" demo_tree)).2
        = ["A/1.pdf", "A/2.pdf", "B/1.pdf"] := by
  refine ⟨?_, ?_, by decide⟩
  · exact h.insertionSort_eq
  · show (L.insertionSort keyLE).map _ = _
    rw [h.insertionSort_eq]

/-- Witness for C8 on a concrete sorted pair list. -/
theorem claim_C8_witness :
    (sort_pdf_files [("A", "1.pdf"), ("A", "2.pdf"), ("B", "1.pdf")]).1
        = [("A", "1.pdf"), ("A", "2.pdf"), ("B", "1.pdf")]
    ∧ (sort_pdf_files [("A", "1.pdf"), ("A", "2.pdf"), ("B", "1.pdf")]).2
        = [("A", "1.pdf"), ("A", "2.pdf"), ("B", "1.pdf")].map
            (fun p => os_path_join p.1 p.2)
    ∧ (sort_pdf_files (find_pdf_files "" demo_tree)).2
        = ["A/1.pdf", "A/2.pdf", "B/1.pdf"] :=
  claim_C8 [("A", "1.pdf"), ("A", "2.pdf"), ("B", "1.pdf")] (by decide)

/-- C10: `sort_pdf_files` mutates its argument in place: afterwards the
caller's list is a permutation of the original (same multiset of
`(directory, filename)` tuples) in (directory, then filename) sorted
order, and the returned value is exactly the joined `directory/filename`
paths of that sorted list, in order. -/
theorem claim_C10 (L : List (String × String)) :
    List.Perm (sort_pdf_files L).1 L
    ∧ ((sort_pdf_files L).1).Sorted keyLE
    ∧ (sort_pdf_files L).2 = ((sort_pdf_files L).1).map (fun p => os_path_join p.1 p.2) :=
  ⟨List.perm_insertionSort keyLE L, List.sorted_insertionSort keyLE L, rfl⟩

end BatchPDF
